import Mathlib

/-!
Verification of the quote-computation core of the quote backend
(src/server.js): pricing formulas, factor and add-on lookups,
mobilization surcharge, eligibility flags, and the pure part of the
submission handler. JavaScript numbers are modelled as rationals;
dynamic values that may be absent or non-numeric are modelled by small
inductive types.
-/

namespace QuoteBackend

/-- Pricing config constants from server.js lines 37-47. -/
def LIDAR_SMALL_THRESHOLD : ℚ := 35
def LIDAR_SMALL_RATE : ℚ := 100
def LIDAR_MINIMUM : ℚ := 2000
def LIDAR_LARGE_RATE : ℚ := 45
def LIDAR_BASE_FEE : ℚ := 3500

def PHOTO_SMALL_THRESHOLD : ℚ := 35
def PHOTO_SMALL_RATE : ℚ := 40
def PHOTO_MINIMUM : ℚ := 800
def PHOTO_LARGE_RATE : ℚ := 20
def PHOTO_BASE_FEE : ℚ := 1400

/-- LIDAR_DENSITY_FACTORS table, server.js line 49. Absent keys are none
(JavaScript undefined). -/
def LIDAR_DENSITY_FACTORS : String → Option ℚ
  | "8" => some (9/10)
  | "20" => some 1
  | "40" => some (23/20)
  | "60" => some (5/4)
  | "250" => some (8/5)
  | _ => none

/-- LIDAR_ACCURACY_FACTORS table, server.js line 50. -/
def LIDAR_ACCURACY_FACTORS : String → Option ℚ
  | "0.5" => some (9/10)
  | "0.3" => some 1
  | "0.1" => some (23/20)
  | _ => none

/-- PHOTO_GSD_FACTORS table, server.js line 51. -/
def PHOTO_GSD_FACTORS : String → Option ℚ
  | "6in" => some (17/20)
  | "3in" => some 1
  | "1in" => some (5/4)
  | _ => none

/-- ADD_ONS catalog, server.js lines 54-61. -/
def ADD_ONS : String → Option ℚ
  | "dtm" => some 450
  | "las" => some 450
  | "contours2ft" => some 450
  | "intensityGeoTIFF" => some 450
  | "dsm" => some 450
  | "planimetric" => some 1200
  | _ => none

/-- A JavaScript value standing where a number is expected
(payload.aoi.totalArea_acres). `num q` is a finite number; the other
constructors are undefined/null, NaN, plus or minus Infinity, and any
non-number value (string, object, boolean, ...). -/
inductive AcresInput where
  | missing
  | nan
  | inf
  | negInf
  | nonNumeric
  | num (q : ℚ)
deriving DecidableEq, Repr

/-- clampNumber, server.js lines 64-65: a non-number or non-finite value
becomes 0, a finite number is clamped below at 0. -/
def clampNumber : AcresInput → ℚ
  | .num q => max 0 q
  | _ => 0

/-- The JavaScript expression x || 0 applied before clampNumber on
server.js line 317: falsy values (undefined, NaN, 0) become the number 0;
everything else passes through. -/
def jsOrZero : AcresInput → AcresInput
  | .missing => .num 0
  | .nan => .num 0
  | .num q => if q = 0 then .num 0 else .num q
  | x => x

/-- Normalized acreage of a submission: clampNumber of totalArea_acres || 0
(server.js line 317). -/
def normAcres (a : AcresInput) : ℚ := clampNumber (jsOrZero a)

/-- computeLidarBase, server.js lines 77-81. none models the null
returned for the manual case. -/
def computeLidarBase (acres : ℚ) : Option ℚ :=
  if acres ≤ LIDAR_SMALL_THRESHOLD then some (max LIDAR_MINIMUM (acres * LIDAR_SMALL_RATE))
  else if acres ≤ 300 then some (acres * LIDAR_LARGE_RATE + LIDAR_BASE_FEE)
  else none

/-- computePhotoBase, server.js lines 82-86. -/
def computePhotoBase (acres : ℚ) : Option ℚ :=
  if acres ≤ PHOTO_SMALL_THRESHOLD then some (max PHOTO_MINIMUM (acres * PHOTO_SMALL_RATE))
  else if acres ≤ 300 then some (acres * PHOTO_LARGE_RATE + PHOTO_BASE_FEE)
  else none

/-- Lidar options object (payload.options.lidar). A field is none when the
key is absent or holds a falsy value, which the source treats alike via
the || defaulting. -/
structure LidarOpts where
  density : Option String := none
  accuracy : Option String := none
  addOns : Option (List String) := none
deriving DecidableEq, Repr

/-- Photo options object (payload.options.photo). -/
structure PhotoOpts where
  gsd : Option String := none
deriving DecidableEq, Repr

/-- The breakdown object attached to a quote. Option fields model keys
that may be absent from the JavaScript object. -/
structure Breakdown where
  base : Option ℚ := none
  densityFactor : Option ℚ := none
  accuracyFactor : Option ℚ := none
  addOns : Option (List String) := none
  addOnsTotal : Option ℚ := none
  gsd : Option String := none
  factor : Option ℚ := none
  mobilizationMiles : Option ℤ := none
  mobilizationCharge : Option ℚ := none
deriving DecidableEq, Repr

/-- A quote object: manualQuote flag, price (null for manual quotes) and
breakdown. -/
structure Quote where
  manualQuote : Bool
  price : Option ℚ
  breakdown : Breakdown
deriving DecidableEq, Repr

/-- The add-on accumulation loop of calcLidar, server.js lines 97-98:
addOns.forEach adding ADD_ONS[k] || 0 to a running total. -/
def addOnsTotalFn (ks : List String) : ℚ :=
  ks.foldl (fun acc k => acc + (ADD_ONS k).getD 0) 0

/-- calcLidar, server.js lines 88-102. -/
def calcLidar (acres : ℚ) (opts : LidarOpts) : Quote :=
  match computeLidarBase acres with
  | none => { manualQuote := true, price := none, breakdown := { base := none } }
  | some base =>
    let densityFactor := (LIDAR_DENSITY_FACTORS (opts.density.getD "20")).getD 1
    let accuracyFactor := (LIDAR_ACCURACY_FACTORS (opts.accuracy.getD "0.3")).getD 1
    let addOns := opts.addOns.getD []
    let addOnsTotal := addOnsTotalFn addOns
    let price := base * densityFactor * accuracyFactor + addOnsTotal
    { manualQuote := false, price := some price,
      breakdown := { base := some base, densityFactor := some densityFactor,
                     accuracyFactor := some accuracyFactor, addOns := some addOns,
                     addOnsTotal := some addOnsTotal } }

/-- calcPhoto, server.js lines 103-108. -/
def calcPhoto (acres : ℚ) (opts : PhotoOpts) : Quote :=
  match computePhotoBase acres with
  | none => { manualQuote := true, price := none, breakdown := { base := none } }
  | some base =>
    let factor := (PHOTO_GSD_FACTORS (opts.gsd.getD "3in")).getD 1
    { manualQuote := false, price := some (base * factor),
      breakdown := { base := some base, gsd := some (opts.gsd.getD "3in"),
                     factor := some factor } }

/-- Outcome of the turf.distance call on a well-formed 2-element centroid
array: a finite number, a non-finite number, or a thrown exception. -/
inductive DistOutcome where
  | val (m : ℚ)
  | nonfinite
  | err
deriving DecidableEq, Repr

/-- The centroid argument of calcMobilizationMiles: either not a 2-element
array (including null or missing), or a 2-element array together with what
the geometry library yields for it. -/
inductive CentroidInput where
  | malformed
  | point (d : DistOutcome)
deriving DecidableEq, Repr

/-- calcMobilizationMiles, server.js lines 113-121: 0 for malformed input,
0 when the distance is non-finite or not positive, 0 when the geometry
library throws, the distance itself otherwise. -/
def calcMobilizationMiles : CentroidInput → ℚ
  | .malformed => 0
  | .point (.val m) => if 0 < m then m else 0
  | .point .nonfinite => 0
  | .point .err => 0

/-- Math.round of JavaScript: floor of x + 1/2 (half rounds up). -/
def jsRound (q : ℚ) : ℤ := ⌊q + 1/2⌋

/-- Result object of calcMobilizationCharge. -/
structure Mob where
  miles : ℚ
  charge : ℚ
deriving DecidableEq, Repr

/-- calcMobilizationCharge, server.js lines 123-130. -/
def calcMobilizationCharge (c : CentroidInput) (mobOn : Bool) : Mob :=
  if !mobOn then { miles := 0, charge := 0 }
  else
    let miles := calcMobilizationMiles c
    if miles ≤ 30 then { miles := miles, charge := 0 }
    else
      let over := max 0 (miles - 30)
      { miles := miles, charge := 250 + (jsRound over : ℚ) }

/-- An AOI feature as seen by the service-area check on server.js line 325:
either turf.booleanIntersects(f, AUTO_AREA) returns a boolean, or the call
throws for this feature. -/
inductive Feature where
  | ok (intersectsAuto : Bool)
  | throws
deriving DecidableEq, Repr

/-- Boolean result of booleanIntersects for a feature that does not throw;
arbitrary (false) for a throwing feature, only used under the hypothesis
that no feature throws. -/
def Feature.intersectsAuto : Feature → Bool
  | .ok b => b
  | .throws => false

/-- features.some(f => turf.booleanIntersects(f, AUTO_AREA)) with the
surrounding try/catch: Array.some short-circuits at the first true, and a
throw before that aborts the whole check (none). -/
def someIntersects : List Feature → Option Bool
  | [] => some false
  | .ok true :: _ => some true
  | .ok false :: fs => someIntersects fs
  | .throws :: _ => none

/-- The inServiceArea computation, server.js lines 321-330: null when the
feature list is empty, otherwise the guarded some(...) over the features. -/
def computeInServiceArea (fs : List Feature) : Option Bool :=
  if fs.isEmpty then none else someIntersects fs

/-- Eligibility flags composed on server.js lines 332-333 and 361. -/
structure Flags where
  areaOver300Acres : Bool
  inServiceArea : Option Bool
  autoQuoteEligible : Bool
deriving DecidableEq, Repr

/-- The pure inputs of one POST /submitQuote request. -/
structure SubmissionIn where
  totalArea_acres : AcresInput := .missing
  service : Option String := none
  lidar : LidarOpts := {}
  photo : PhotoOpts := {}
  features : List Feature := []
  centroid : CentroidInput := .malformed
  mobilizationOn : Bool := false
deriving DecidableEq, Repr

/-- Character-wise lowercasing, modelling toLowerCase() of JavaScript on
the ASCII service names compared against. -/
def jsToLower (s : String) : String := ⟨s.data.map Char.toLower⟩

/-- Service-type normalization, server.js line 318:
String(options.service || "lidar").toLowerCase(). -/
def selectService (s : Option String) : String := jsToLower (s.getD "lidar")

/-- Quote dispatch by service type, server.js lines 336-344; an
unrecognized service falls back to lidar. -/
def computeQuote (sub : SubmissionIn) : Quote :=
  let acres := normAcres sub.totalArea_acres
  let service := selectService sub.service
  if service = "lidar" then calcLidar acres sub.lidar
  else if service = "photo" ∨ service = "photogrammetry" then calcPhoto acres sub.photo
  else calcLidar acres sub.lidar

/-- Merging the mobilization result into the quote, server.js lines
350-359: a priced quote gets the charge added to its price, and both
branches record rounded miles and the charge in the breakdown. -/
def applyMobilization (q : Quote) (mob : Mob) : Quote :=
  if !q.manualQuote && q.price.isSome then
    { q with price := q.price.map (· + mob.charge),
             breakdown := { q.breakdown with
                              mobilizationMiles := some (jsRound mob.miles),
                              mobilizationCharge := some mob.charge } }
  else
    { q with breakdown := { q.breakdown with
                              mobilizationMiles := some (jsRound mob.miles),
                              mobilizationCharge := some mob.charge } }

/-- The pure core of the POST /submitQuote handler, server.js lines
309-361: normalized acreage, eligibility flags, service dispatch,
mobilization, and the merged quote. -/
def submitQuoteCore (sub : SubmissionIn) : Quote × Flags :=
  let acres := normAcres sub.totalArea_acres
  let inServiceArea := computeInServiceArea sub.features
  let areaOver300Acres : Bool := decide (300 < acres)
  let autoQuoteEligible : Bool := !areaOver300Acres && decide (inServiceArea = some true)
  let quote := computeQuote sub
  let mob := calcMobilizationCharge sub.centroid sub.mobilizationOn
  (applyMobilization quote mob,
   { areaOver300Acres := areaOver300Acres, inServiceArea := inServiceArea,
     autoQuoteEligible := autoQuoteEligible })

/-! Helper lemmas shared by several claims. -/

/-- The foldl accumulator of the add-on loop shifts out additively. -/
lemma addOnsTotalFn_foldl_shift (ks : List String) (c : ℚ) :
    ks.foldl (fun acc k => acc + (ADD_ONS k).getD 0) c =
      c + ks.foldl (fun acc k => acc + (ADD_ONS k).getD 0) 0 := by
  induction ks generalizing c with
  | nil => simp
  | cons k ks ih =>
    simp only [List.foldl_cons]
    rw [ih (c + (ADD_ONS k).getD 0), ih ((0:ℚ) + (ADD_ONS k).getD 0)]
    ring

lemma addOnsTotalFn_nil : addOnsTotalFn [] = 0 := rfl

lemma addOnsTotalFn_cons (k : String) (ks : List String) :
    addOnsTotalFn (k :: ks) = (ADD_ONS k).getD 0 + addOnsTotalFn ks := by
  unfold addOnsTotalFn
  simp only [List.foldl_cons]
  rw [addOnsTotalFn_foldl_shift]
  ring

lemma addOnsTotalFn_eq_sum (ks : List String) :
    addOnsTotalFn ks = (ks.map (fun k => (ADD_ONS k).getD 0)).sum := by
  induction ks with
  | nil => simp [addOnsTotalFn_nil]
  | cons k ks ih => rw [addOnsTotalFn_cons, ih]; simp

lemma addOnsTotalFn_replicate_append (n : ℕ) (k : String) (l : List String) :
    addOnsTotalFn (List.replicate n k ++ l) =
      (n : ℚ) * (ADD_ONS k).getD 0 + addOnsTotalFn l := by
  induction n with
  | zero => simp [List.replicate]
  | succ n ih =>
    rw [List.replicate_succ, List.cons_append, addOnsTotalFn_cons, ih]
    push_cast
    ring

lemma computeLidarBase_isSome_of_le (a : ℚ) (h : a ≤ 300) :
    ∃ b, computeLidarBase a = some b := by
  unfold computeLidarBase
  by_cases h35 : a ≤ LIDAR_SMALL_THRESHOLD
  · exact ⟨_, by rw [if_pos h35]⟩
  · exact ⟨_, by rw [if_neg h35, if_pos h]⟩

lemma computePhotoBase_isSome_of_le (a : ℚ) (h : a ≤ 300) :
    ∃ b, computePhotoBase a = some b := by
  unfold computePhotoBase
  by_cases h35 : a ≤ PHOTO_SMALL_THRESHOLD
  · exact ⟨_, by rw [if_pos h35]⟩
  · exact ⟨_, by rw [if_neg h35, if_pos h]⟩

lemma calcLidar_of_base (a : ℚ) (opts : LidarOpts) (b : ℚ)
    (hb : computeLidarBase a = some b) :
    calcLidar a opts =
      { manualQuote := false,
        price := some (b * (LIDAR_DENSITY_FACTORS (opts.density.getD "20")).getD 1 *
                         (LIDAR_ACCURACY_FACTORS (opts.accuracy.getD "0.3")).getD 1 +
                       addOnsTotalFn (opts.addOns.getD [])),
        breakdown := { base := some b,
                       densityFactor := some ((LIDAR_DENSITY_FACTORS (opts.density.getD "20")).getD 1),
                       accuracyFactor := some ((LIDAR_ACCURACY_FACTORS (opts.accuracy.getD "0.3")).getD 1),
                       addOns := some (opts.addOns.getD []),
                       addOnsTotal := some (addOnsTotalFn (opts.addOns.getD [])) } } := by
  unfold calcLidar
  rw [hb]

lemma calcPhoto_of_base (a : ℚ) (opts : PhotoOpts) (b : ℚ)
    (hb : computePhotoBase a = some b) :
    calcPhoto a opts =
      { manualQuote := false,
        price := some (b * (PHOTO_GSD_FACTORS (opts.gsd.getD "3in")).getD 1),
        breakdown := { base := some b,
                       gsd := some (opts.gsd.getD "3in"),
                       factor := some ((PHOTO_GSD_FACTORS (opts.gsd.getD "3in")).getD 1) } } := by
  unfold calcPhoto
  rw [hb]

/-- C1: for every finite non-negative acreage a, the lidar base price is
max(2000, 100*a) when a is at most 35, and 45*a + 3500 when a is in
(35, 300]; when a exceeds 300 the lidar quote is the manual sentinel with
null price and null base, with no error raised (the function is total). -/
theorem lidar_base_tiers_and_manual (a : ℚ) (opts : LidarOpts) (h0 : 0 ≤ a) :
    (a ≤ 35 → computeLidarBase a = some (max 2000 (100 * a))) ∧
    (35 < a → a ≤ 300 → computeLidarBase a = some (45 * a + 3500)) ∧
    (300 < a → calcLidar a opts =
      { manualQuote := true, price := none, breakdown := { base := none } }) := by
  refine ⟨fun h => ?_, fun h1 h2 => ?_, fun h => ?_⟩
  · unfold computeLidarBase LIDAR_SMALL_THRESHOLD LIDAR_MINIMUM LIDAR_SMALL_RATE
    rw [if_pos h, mul_comm]
  · unfold computeLidarBase LIDAR_SMALL_THRESHOLD LIDAR_LARGE_RATE LIDAR_BASE_FEE
    rw [if_neg (by linarith), if_pos h2, mul_comm]
  · have hnone : computeLidarBase a = none := by
      unfold computeLidarBase LIDAR_SMALL_THRESHOLD
      rw [if_neg (by linarith), if_neg (by linarith)]
    unfold calcLidar
    rw [hnone]

/-- Witness for C1 at acreages 20, 100 and 400. -/
theorem lidar_base_tiers_and_manual_witness :
    computeLidarBase 20 = some (max 2000 (100 * 20)) ∧
    computeLidarBase 100 = some (45 * 100 + 3500) ∧
    calcLidar 400 {} = { manualQuote := true, price := none, breakdown := { base := none } } :=
  ⟨(lidar_base_tiers_and_manual 20 {} (by norm_num)).1 (by norm_num),
   (lidar_base_tiers_and_manual 100 {} (by norm_num)).2.1 (by norm_num) (by norm_num),
   (lidar_base_tiers_and_manual 400 {} (by norm_num)).2.2 (by norm_num)⟩

/-- C2: for every finite non-negative acreage a, the photogrammetry base
price is max(800, 40*a) when a is at most 35 and 20*a + 1400 when a is in
(35, 300], manual when a exceeds 300; the photogrammetry final price equals
base times the GSD factor, and the tier defaults to "3in" when the GSD
option is unspecified. -/
theorem photo_base_tiers_and_price (a : ℚ) (opts : PhotoOpts) (h0 : 0 ≤ a) :
    (a ≤ 35 → computePhotoBase a = some (max 800 (40 * a))) ∧
    (35 < a → a ≤ 300 → computePhotoBase a = some (20 * a + 1400)) ∧
    (300 < a → calcPhoto a opts =
      { manualQuote := true, price := none, breakdown := { base := none } }) ∧
    (∀ b, computePhotoBase a = some b →
      (calcPhoto a opts).price =
        some (b * (PHOTO_GSD_FACTORS (opts.gsd.getD "3in")).getD 1)) ∧
    (opts.gsd = none → ∀ b, computePhotoBase a = some b →
      (calcPhoto a opts).breakdown.gsd = some "3in") := by
  refine ⟨fun h => ?_, fun h1 h2 => ?_, fun h => ?_, fun b hb => ?_, fun hg b hb => ?_⟩
  · unfold computePhotoBase PHOTO_SMALL_THRESHOLD PHOTO_MINIMUM PHOTO_SMALL_RATE
    rw [if_pos h, mul_comm]
  · unfold computePhotoBase PHOTO_SMALL_THRESHOLD PHOTO_LARGE_RATE PHOTO_BASE_FEE
    rw [if_neg (by linarith), if_pos h2, mul_comm]
  · have hnone : computePhotoBase a = none := by
      unfold computePhotoBase PHOTO_SMALL_THRESHOLD
      rw [if_neg (by linarith), if_neg (by linarith)]
    unfold calcPhoto
    rw [hnone]
  · rw [calcPhoto_of_base a opts b hb]
  · rw [calcPhoto_of_base a opts b hb, hg]
    rfl

/-- Witness for C2 at acreages 10, 100 and 301, with the GSD option left
unspecified. -/
theorem photo_base_tiers_and_price_witness :
    computePhotoBase 10 = some (max 800 (40 * 10)) ∧
    computePhotoBase 100 = some (20 * 100 + 1400) ∧
    calcPhoto 301 {} = { manualQuote := true, price := none, breakdown := { base := none } } ∧
    (calcPhoto 10 {}).price = some (800 * (PHOTO_GSD_FACTORS (Option.getD none "3in")).getD 1) ∧
    (calcPhoto 10 {}).breakdown.gsd = some "3in" :=
  ⟨(photo_base_tiers_and_price 10 {} (by norm_num)).1 (by norm_num),
   (photo_base_tiers_and_price 100 {} (by norm_num)).2.1 (by norm_num) (by norm_num),
   (photo_base_tiers_and_price 301 {} (by norm_num)).2.2.1 (by norm_num),
   (photo_base_tiers_and_price 10 {} (by norm_num)).2.2.2.1 800
     (by unfold computePhotoBase PHOTO_SMALL_THRESHOLD PHOTO_MINIMUM PHOTO_SMALL_RATE
         norm_num),
   (photo_base_tiers_and_price 10 {} (by norm_num)).2.2.2.2 rfl 800
     (by unfold computePhotoBase PHOTO_SMALL_THRESHOLD PHOTO_MINIMUM PHOTO_SMALL_RATE
         norm_num)⟩

/-- C4: mobilization off yields miles 0 and charge 0 regardless of
centroid; with mobilization on, a distance of at most 30 miles yields
charge 0, a distance above 30 miles yields charge 250 + round(d - 30), and
a malformed centroid (or one the geometry library rejects) yields distance
0 and charge 0, with no error raised. -/
theorem mobilization_charge_cases (c : CentroidInput) (m : ℚ) :
    (calcMobilizationCharge c false = { miles := 0, charge := 0 }) ∧
    (c = .point (.val m) → m ≤ 30 → (calcMobilizationCharge c true).charge = 0) ∧
    (c = .point (.val m) → 30 < m →
      calcMobilizationCharge c true = { miles := m, charge := 250 + (jsRound (m - 30) : ℚ) }) ∧
    (c = .malformed ∨ c = .point .err →
      calcMobilizationMiles c = 0 ∧
      calcMobilizationCharge c true = { miles := 0, charge := 0 }) := by
  refine ⟨rfl, fun hc hm => ?_, fun hc hm => ?_, fun hc => ?_⟩
  · subst hc
    unfold calcMobilizationCharge calcMobilizationMiles
    by_cases hpos : 0 < m
    · simp only [Bool.not_true, if_pos hpos]
      rw [if_neg (by simp), if_pos hm]
    · simp only [Bool.not_true, if_neg hpos]
      norm_num
  · subst hc
    have hpos : 0 < m := by linarith
    unfold calcMobilizationCharge calcMobilizationMiles
    simp only [Bool.not_true, if_pos hpos]
    rw [if_neg (by simp), if_neg (by linarith)]
    rw [max_eq_right (by linarith : (0:ℚ) ≤ m - 30)]
  · have hmiles : calcMobilizationMiles c = 0 := by
      rcases hc with hc | hc <;> subst hc <;> rfl
    refine ⟨hmiles, ?_⟩
    unfold calcMobilizationCharge
    rw [hmiles]
    norm_num

/-- Witness for C4 at distances 20 and 45 miles and a malformed centroid. -/
theorem mobilization_charge_cases_witness :
    (calcMobilizationCharge (.point (.val 20)) true).charge = 0 ∧
    calcMobilizationCharge (.point (.val 45)) true =
      { miles := 45, charge := 250 + (jsRound (45 - 30) : ℚ) } ∧
    calcMobilizationMiles .malformed = 0 ∧
    calcMobilizationCharge .malformed true = { miles := 0, charge := 0 } :=
  ⟨(mobilization_charge_cases (.point (.val 20)) 20).2.1 rfl (by norm_num),
   (mobilization_charge_cases (.point (.val 45)) 45).2.2.1 rfl (by norm_num),
   ((mobilization_charge_cases .malformed 0).2.2.2 (Or.inl rfl)).1,
   ((mobilization_charge_cases .malformed 0).2.2.2 (Or.inl rfl)).2⟩

lemma someIntersects_eq_none_iff (fs : List Feature) :
    someIntersects fs = none ↔
      ∃ pre post, fs = pre ++ Feature.throws :: post ∧ ∀ f ∈ pre, f = Feature.ok false := by
  induction fs with
  | nil =>
    simp only [someIntersects]
    constructor
    · intro h; exact absurd h (by simp)
    · rintro ⟨pre, post, h, -⟩
      exact absurd h.symm (by simp)
  | cons f fs ih =>
    cases f with
    | ok b =>
      cases b with
      | true =>
        simp only [someIntersects]
        constructor
        · intro h; exact absurd h (by simp)
        · rintro ⟨pre, post, heq, hall⟩
          cases pre with
          | nil => simp at heq
          | cons p pre =>
            have hp : p = Feature.ok false := hall p (by simp)
            simp [hp] at heq
      | false =>
        simp only [someIntersects]
        rw [ih]
        constructor
        · rintro ⟨pre, post, heq, hall⟩
          refine ⟨Feature.ok false :: pre, post, by simp [heq], ?_⟩
          intro f hf
          rcases List.mem_cons.mp hf with hf | hf
          · exact hf
          · exact hall f hf
        · rintro ⟨pre, post, heq, hall⟩
          cases pre with
          | nil => simp at heq
          | cons p pre =>
            simp only [List.cons_append, List.cons.injEq] at heq
            refine ⟨pre, post, heq.2, ?_⟩
            intro f hf
            exact hall f (List.mem_cons_of_mem p hf)
    | throws =>
      simp only [someIntersects]
      constructor
      · intro _
        exact ⟨[], fs, by simp, by simp⟩
      · intro _
        trivial

lemma someIntersects_no_throws (fs : List Feature) (h : ∀ f ∈ fs, f ≠ Feature.throws) :
    someIntersects fs = some (fs.any Feature.intersectsAuto) := by
  induction fs with
  | nil => rfl
  | cons f fs ih =>
    cases f with
    | ok b =>
      cases b with
      | true => simp [someIntersects, Feature.intersectsAuto]
      | false =>
        simp only [someIntersects, List.any_cons, Feature.intersectsAuto, Bool.false_or]
        exact ih (fun f hf => h f (List.mem_cons_of_mem _ hf))
    | throws => exact absurd rfl (h Feature.throws (by simp))

lemma submitQuoteCore_flags (sub : SubmissionIn) :
    (submitQuoteCore sub).2 =
      { areaOver300Acres := decide (300 < normAcres sub.totalArea_acres),
        inServiceArea := computeInServiceArea sub.features,
        autoQuoteEligible := !(decide (300 < normAcres sub.totalArea_acres)) &&
          decide (computeInServiceArea sub.features = some true) } := rfl

/-- C5: areaOver300Acres equals (normalized acres > 300); inServiceArea is
null exactly when the feature set is empty or the guarded intersection
check throws (a throwing feature is reached before any intersecting one);
when no feature throws and the set is nonempty it is the logical OR of
feature-intersects-service-area over all AOI features; and
autoQuoteEligible is true exactly when the area is not over 300 acres and
inServiceArea is strictly some true. -/
theorem eligibility_flags_spec (sub : SubmissionIn) :
    ((submitQuoteCore sub).2.areaOver300Acres = decide (300 < normAcres sub.totalArea_acres)) ∧
    ((submitQuoteCore sub).2.inServiceArea = none ↔
      sub.features = [] ∨
        ∃ pre post, sub.features = pre ++ Feature.throws :: post ∧
          ∀ f ∈ pre, f = Feature.ok false) ∧
    ((∀ f ∈ sub.features, f ≠ Feature.throws) → sub.features ≠ [] →
      (submitQuoteCore sub).2.inServiceArea = some (sub.features.any Feature.intersectsAuto)) ∧
    ((submitQuoteCore sub).2.autoQuoteEligible =
      (!(submitQuoteCore sub).2.areaOver300Acres &&
        decide ((submitQuoteCore sub).2.inServiceArea = some true))) := by
  rw [submitQuoteCore_flags]
  refine ⟨rfl, ?_, fun hnt hne => ?_, rfl⟩
  · unfold computeInServiceArea
    cases hfs : sub.features with
    | nil => simp
    | cons f fs =>
      rw [if_neg (by simp)]
      rw [someIntersects_eq_none_iff]
      simp
  · unfold computeInServiceArea
    rw [if_neg (by simpa using hne)]
    exact someIntersects_no_throws sub.features hnt

/-- Witness for C5 on a two-feature submission where the second feature
intersects the service area. -/
theorem eligibility_flags_spec_witness :
    (submitQuoteCore { features := [Feature.ok false, Feature.ok true] }).2.inServiceArea =
      some ([Feature.ok false, Feature.ok true].any Feature.intersectsAuto) :=
  (eligibility_flags_spec { features := [Feature.ok false, Feature.ok true] }).2.2.1
    (by decide) (by decide)

/-- C6: a tier key absent from the relevant factor table resolves to the
neutral factor 1.0 for lidar density, lidar accuracy and photo GSD, and an
unspecified option falls back to the default tiers "20", "0.3" and "3in". -/
theorem factor_lookup_defaults (a : ℚ) (lopts : LidarOpts) (popts : PhotoOpts)
    (h : a ≤ 300) :
    (LIDAR_DENSITY_FACTORS (lopts.density.getD "20") = none →
      (calcLidar a lopts).breakdown.densityFactor = some 1) ∧
    (LIDAR_ACCURACY_FACTORS (lopts.accuracy.getD "0.3") = none →
      (calcLidar a lopts).breakdown.accuracyFactor = some 1) ∧
    (PHOTO_GSD_FACTORS (popts.gsd.getD "3in") = none →
      (calcPhoto a popts).breakdown.factor = some 1) ∧
    (lopts.density = none →
      (calcLidar a lopts).breakdown.densityFactor = some ((LIDAR_DENSITY_FACTORS "20").getD 1)) ∧
    (lopts.accuracy = none →
      (calcLidar a lopts).breakdown.accuracyFactor = some ((LIDAR_ACCURACY_FACTORS "0.3").getD 1)) ∧
    (popts.gsd = none →
      (calcPhoto a popts).breakdown.factor = some ((PHOTO_GSD_FACTORS "3in").getD 1)) := by
  obtain ⟨bl, hbl⟩ := computeLidarBase_isSome_of_le a h
  obtain ⟨bp, hbp⟩ := computePhotoBase_isSome_of_le a h
  rw [calcLidar_of_base a lopts bl hbl, calcPhoto_of_base a popts bp hbp]
  refine ⟨fun hd => ?_, fun hd => ?_, fun hd => ?_, fun hd => ?_, fun hd => ?_, fun hd => ?_⟩
  all_goals simp [hd]

/-- Witness for C6 with the unknown tiers "999", "foo", "9in" and with all
options unspecified. -/
theorem factor_lookup_defaults_witness :
    (calcLidar 10 { density := some "999", accuracy := some "foo" }).breakdown.densityFactor = some 1 ∧
    (calcLidar 10 { density := some "999", accuracy := some "foo" }).breakdown.accuracyFactor = some 1 ∧
    (calcPhoto 10 { gsd := some "9in" }).breakdown.factor = some 1 ∧
    (calcLidar 10 {}).breakdown.densityFactor = some ((LIDAR_DENSITY_FACTORS "20").getD 1) ∧
    (calcLidar 10 {}).breakdown.accuracyFactor = some ((LIDAR_ACCURACY_FACTORS "0.3").getD 1) ∧
    (calcPhoto 10 {}).breakdown.factor = some ((PHOTO_GSD_FACTORS "3in").getD 1) :=
  ⟨(factor_lookup_defaults 10 { density := some "999", accuracy := some "foo" } {} (by norm_num)).1 rfl,
   (factor_lookup_defaults 10 { density := some "999", accuracy := some "foo" } {} (by norm_num)).2.1 rfl,
   (factor_lookup_defaults 10 {} { gsd := some "9in" } (by norm_num)).2.2.1 rfl,
   (factor_lookup_defaults 10 {} {} (by norm_num)).2.2.2.1 rfl,
   (factor_lookup_defaults 10 {} {} (by norm_num)).2.2.2.2.1 rfl,
   (factor_lookup_defaults 10 {} {} (by norm_num)).2.2.2.2.2 rfl⟩

/-- C7: an add-on key absent from the catalog contributes exactly 0 to the
add-on total, the total equals the sum of the individual catalog fees of
the selected keys, the total is invariant under permutation of the
selection, and no selection is ever rejected: every selection yields a
priced quote with its total recorded (for acreage within the automatic
range). -/
theorem addons_sum_and_perm (a : ℚ) (lopts : LidarOpts) (k : String)
    (ks l1 l2 : List String) (h : a ≤ 300) :
    (ADD_ONS k = none → addOnsTotalFn (k :: ks) = addOnsTotalFn ks) ∧
    (addOnsTotalFn ks = (ks.map (fun j => (ADD_ONS j).getD 0)).sum) ∧
    (l1.Perm l2 → addOnsTotalFn l1 = addOnsTotalFn l2) ∧
    (calcLidar a lopts).manualQuote = false ∧
    (calcLidar a lopts).breakdown.addOnsTotal =
      some (addOnsTotalFn (lopts.addOns.getD [])) := by
  obtain ⟨b, hb⟩ := computeLidarBase_isSome_of_le a h
  refine ⟨fun hk => ?_, addOnsTotalFn_eq_sum ks, fun hp => ?_, ?_, ?_⟩
  · rw [addOnsTotalFn_cons, hk]
    simp
  · rw [addOnsTotalFn_eq_sum, addOnsTotalFn_eq_sum]
    exact List.Perm.sum_eq (hp.map _)
  · rw [calcLidar_of_base a lopts b hb]
  · rw [calcLidar_of_base a lopts b hb]

/-- Witness for C7 with the unknown key "bogus" and a two-element
permutation. -/
theorem addons_sum_and_perm_witness :
    addOnsTotalFn ("bogus" :: ["dtm"]) = addOnsTotalFn ["dtm"] ∧
    addOnsTotalFn ["dtm"] = (["dtm"].map (fun j => (ADD_ONS j).getD 0)).sum ∧
    addOnsTotalFn ["dtm", "las"] = addOnsTotalFn ["las", "dtm"] ∧
    (calcLidar 10 { addOns := some ["dtm", "las"] }).manualQuote = false ∧
    (calcLidar 10 { addOns := some ["dtm", "las"] }).breakdown.addOnsTotal =
      some (addOnsTotalFn ((some ["dtm", "las"]).getD [])) :=
  ⟨(addons_sum_and_perm 10 { addOns := some ["dtm", "las"] } "bogus" ["dtm"]
      ["dtm", "las"] ["las", "dtm"] (by norm_num)).1 rfl,
   (addons_sum_and_perm 10 { addOns := some ["dtm", "las"] } "bogus" ["dtm"]
      ["dtm", "las"] ["las", "dtm"] (by norm_num)).2.1,
   (addons_sum_and_perm 10 { addOns := some ["dtm", "las"] } "bogus" ["dtm"]
      ["dtm", "las"] ["las", "dtm"] (by norm_num)).2.2.1 (List.Perm.swap "las" "dtm" []),
   (addons_sum_and_perm 10 { addOns := some ["dtm", "las"] } "bogus" ["dtm"]
      ["dtm", "las"] ["las", "dtm"] (by norm_num)).2.2.2.1,
   (addons_sum_and_perm 10 { addOns := some ["dtm", "las"] } "bogus" ["dtm"]
      ["dtm", "las"] ["las", "dtm"] (by norm_num)).2.2.2.2⟩

/-- C9: a duplicated add-on key is charged once per occurrence: when the
selection is n copies of key k followed by a remainder, the recorded
add-on total is n times the fee of k plus the total of the remainder, for
every acreage not exceeding 300. -/
theorem addons_multiplicity (n : ℕ) (k : String) (l : List String) (a : ℚ)
    (lopts : LidarOpts) (h : a ≤ 300)
    (hsel : lopts.addOns = some (List.replicate n k ++ l)) :
    (calcLidar a lopts).breakdown.addOnsTotal =
      some ((n : ℚ) * (ADD_ONS k).getD 0 + addOnsTotalFn l) := by
  obtain ⟨b, hb⟩ := computeLidarBase_isSome_of_le a h
  rw [calcLidar_of_base a lopts b hb]
  simp only [hsel, Option.getD_some]
  rw [addOnsTotalFn_replicate_append]

/-- Witness for C9 with the key "dtm" selected twice. -/
theorem addons_multiplicity_witness :
    (calcLidar 10 { addOns := some ["dtm", "dtm"] }).breakdown.addOnsTotal =
      some (((2 : ℕ) : ℚ) * (ADD_ONS "dtm").getD 0 + addOnsTotalFn []) :=
  addons_multiplicity 2 "dtm" [] 10 { addOns := some ["dtm", "dtm"] } (by norm_num) rfl

/-- A totalArea_acres input that is missing, NaN, infinite, non-numeric or
a negative number: exactly the inputs C10 says normalize to acreage 0. -/
def isBadAcres : AcresInput → Bool
  | .num q => decide (q < 0)
  | _ => true

/-- C10: a missing, non-numeric, non-finite or negative totalArea_acres
normalizes to acreage 0, so the quote is never manual: the lidar base is
the 2000 minimum, the photogrammetry base is the 800 minimum, and a priced
quote is produced for either service. -/
theorem bad_acreage_never_manual (raw : AcresInput) (lopts : LidarOpts)
    (popts : PhotoOpts) (hb : isBadAcres raw = true) :
    normAcres raw = 0 ∧
    (calcLidar (normAcres raw) lopts).manualQuote = false ∧
    (calcLidar (normAcres raw) lopts).breakdown.base = some 2000 ∧
    (calcLidar (normAcres raw) lopts).price.isSome = true ∧
    (calcPhoto (normAcres raw) popts).manualQuote = false ∧
    (calcPhoto (normAcres raw) popts).breakdown.base = some 800 ∧
    (calcPhoto (normAcres raw) popts).price.isSome = true := by
  have h0 : normAcres raw = 0 := by
    cases raw with
    | num q =>
      have hq : q < 0 := by simpa [isBadAcres] using hb
      have h1 : jsOrZero (.num q) = .num q := by
        simp [jsOrZero, hq.ne]
      unfold normAcres
      rw [h1]
      simp only [clampNumber]
      exact max_eq_left hq.le
    | missing => simp [normAcres, jsOrZero, clampNumber]
    | nan => simp [normAcres, jsOrZero, clampNumber]
    | inf => rfl
    | negInf => rfl
    | nonNumeric => rfl
  have hlb : computeLidarBase 0 = some 2000 := by
    unfold computeLidarBase LIDAR_SMALL_THRESHOLD LIDAR_MINIMUM LIDAR_SMALL_RATE
    rw [if_pos (by norm_num)]
    norm_num
  have hpb : computePhotoBase 0 = some 800 := by
    unfold computePhotoBase PHOTO_SMALL_THRESHOLD PHOTO_MINIMUM PHOTO_SMALL_RATE
    rw [if_pos (by norm_num)]
    norm_num
  rw [h0, calcLidar_of_base 0 lopts 2000 hlb, calcPhoto_of_base 0 popts 800 hpb]
  refine ⟨rfl, rfl, rfl, rfl, rfl, rfl, rfl⟩

/-- Witness for C10 at a NaN totalArea_acres. -/
theorem bad_acreage_never_manual_witness :
    normAcres .nan = 0 ∧
    (calcLidar (normAcres .nan) {}).manualQuote = false ∧
    (calcLidar (normAcres .nan) {}).breakdown.base = some 2000 ∧
    (calcLidar (normAcres .nan) {}).price.isSome = true ∧
    (calcPhoto (normAcres .nan) {}).manualQuote = false ∧
    (calcPhoto (normAcres .nan) {}).breakdown.base = some 800 ∧
    (calcPhoto (normAcres .nan) {}).price.isSome = true :=
  bad_acreage_never_manual .nan {} {} rfl

lemma computeQuote_cases (sub : SubmissionIn) :
    computeQuote sub = calcLidar (normAcres sub.totalArea_acres) sub.lidar ∨
    computeQuote sub = calcPhoto (normAcres sub.totalArea_acres) sub.photo := by
  simp only [computeQuote]
  split
  · exact Or.inl rfl
  · split
    · exact Or.inr rfl
    · exact Or.inl rfl

lemma applyMobilization_of_manual (q : Quote) (mob : Mob) (h : q.manualQuote = true) :
    applyMobilization q mob =
      { q with breakdown := { q.breakdown with
          mobilizationMiles := some (jsRound mob.miles),
          mobilizationCharge := some mob.charge } } := by
  unfold applyMobilization
  simp [h]

lemma applyMobilization_of_priced (q : Quote) (mob : Mob) (p : ℚ)
    (h1 : q.manualQuote = false) (h2 : q.price = some p) :
    applyMobilization q mob =
      { q with price := some (p + mob.charge),
               breakdown := { q.breakdown with
                 mobilizationMiles := some (jsRound mob.miles),
                 mobilizationCharge := some mob.charge } } := by
  unfold applyMobilization
  simp [h1, h2]

/-- C3: for every non-manual quote produced by the submission handler the
breakdown reconstructs the final price, as
base * densityFactor * accuracyFactor + addOnsTotal + mobilizationCharge
for lidar and base * gsdFactor + mobilizationCharge for photogrammetry;
and a manual quote still records mobilization miles and charge in the
breakdown while its price stays null. -/
theorem submit_breakdown_reconstructs_price (sub : SubmissionIn) :
    ((submitQuoteCore sub).1.manualQuote = false →
      ∀ b d acc t mc,
        (submitQuoteCore sub).1.breakdown.base = some b →
        (submitQuoteCore sub).1.breakdown.densityFactor = some d →
        (submitQuoteCore sub).1.breakdown.accuracyFactor = some acc →
        (submitQuoteCore sub).1.breakdown.addOnsTotal = some t →
        (submitQuoteCore sub).1.breakdown.mobilizationCharge = some mc →
        (submitQuoteCore sub).1.price = some (b * d * acc + t + mc)) ∧
    ((submitQuoteCore sub).1.manualQuote = false →
      ∀ b f mc,
        (submitQuoteCore sub).1.breakdown.base = some b →
        (submitQuoteCore sub).1.breakdown.factor = some f →
        (submitQuoteCore sub).1.breakdown.mobilizationCharge = some mc →
        (submitQuoteCore sub).1.price = some (b * f + mc)) ∧
    ((submitQuoteCore sub).1.manualQuote = true →
      (submitQuoteCore sub).1.price = none ∧
      (submitQuoteCore sub).1.breakdown.mobilizationMiles =
        some (jsRound (calcMobilizationCharge sub.centroid sub.mobilizationOn).miles) ∧
      (submitQuoteCore sub).1.breakdown.mobilizationCharge =
        some (calcMobilizationCharge sub.centroid sub.mobilizationOn).charge) := by
  have hfst : (submitQuoteCore sub).1 =
      applyMobilization (computeQuote sub)
        (calcMobilizationCharge sub.centroid sub.mobilizationOn) := rfl
  set mob := calcMobilizationCharge sub.centroid sub.mobilizationOn with hmobdef
  rcases computeQuote_cases sub with hq | hq
  · rcases hbase : computeLidarBase (normAcres sub.totalArea_acres) with _ | b0
    · have hman : computeQuote sub =
          { manualQuote := true, price := none, breakdown := { base := none } } := by
        rw [hq]
        unfold calcLidar
        rw [hbase]
      rw [hfst, hman, applyMobilization_of_manual _ mob rfl]
      exact ⟨fun hco => by simp at hco, fun hco => by simp at hco, fun _ => ⟨rfl, rfl, rfl⟩⟩
    · have hcq := hq.trans
        (calcLidar_of_base (normAcres sub.totalArea_acres) sub.lidar b0 hbase)
      rw [hfst, hcq, applyMobilization_of_priced _ mob _ rfl rfl]
      refine ⟨fun _ b d acc t mc h1 h2 h3 h4 h5 => ?_,
              fun _ b f mc h1 h2 h3 => ?_, fun hco => by simp at hco⟩
      · have hb : b = b0 := by simpa using h1.symm
        have hd : d = (LIDAR_DENSITY_FACTORS (sub.lidar.density.getD "20")).getD 1 := by
          simpa using h2.symm
        have hacc : acc = (LIDAR_ACCURACY_FACTORS (sub.lidar.accuracy.getD "0.3")).getD 1 := by
          simpa using h3.symm
        have ht : t = addOnsTotalFn (sub.lidar.addOns.getD []) := by simpa using h4.symm
        have hmc : mc = mob.charge := by simpa using h5.symm
        subst hb hd hacc ht hmc
        rfl
      · exact absurd h2 (by simp)
  · rcases hbase : computePhotoBase (normAcres sub.totalArea_acres) with _ | b0
    · have hman : computeQuote sub =
          { manualQuote := true, price := none, breakdown := { base := none } } := by
        rw [hq]
        unfold calcPhoto
        rw [hbase]
      rw [hfst, hman, applyMobilization_of_manual _ mob rfl]
      exact ⟨fun hco => by simp at hco, fun hco => by simp at hco, fun _ => ⟨rfl, rfl, rfl⟩⟩
    · have hcq := hq.trans
        (calcPhoto_of_base (normAcres sub.totalArea_acres) sub.photo b0 hbase)
      rw [hfst, hcq, applyMobilization_of_priced _ mob _ rfl rfl]
      refine ⟨fun _ b d acc t mc h1 h2 h3 h4 h5 => ?_,
              fun _ b f mc h1 h2 h3 => ?_, fun hco => by simp at hco⟩
      · exact absurd h2 (by simp)
      · have hb : b = b0 := by simpa using h1.symm
        have hf : f = (PHOTO_GSD_FACTORS (sub.photo.gsd.getD "3in")).getD 1 := by
          simpa using h2.symm
        have hmc : mc = mob.charge := by simpa using h3.symm
        subst hb hf hmc
        rfl

/-- Witness for C3 on the 20-acre lidar scenario with the dtm add-on and
mobilization off, whose reconstructed price is 2450. -/
theorem submit_breakdown_reconstructs_price_witness :
    (submitQuoteCore { totalArea_acres := .num 20,
                       lidar := { addOns := some ["dtm"] } }).1.price = some 2450 := by
  have h := (submit_breakdown_reconstructs_price
      { totalArea_acres := .num 20, lidar := { addOns := some ["dtm"] } }).1
  have heval : (submitQuoteCore { totalArea_acres := .num 20,
                                  lidar := { addOns := some ["dtm"] } }).1 =
      { manualQuote := false, price := some 2450,
        breakdown := { base := some 2000, densityFactor := some 1, accuracyFactor := some 1,
                       addOns := some ["dtm"], addOnsTotal := some 450,
                       mobilizationMiles := some 0, mobilizationCharge := some 0 } } := by
    have hserv : selectService none = "lidar" := by decide
    simp [submitQuoteCore, computeQuote, hserv, normAcres, jsOrZero, clampNumber,
          calcLidar, computeLidarBase, LIDAR_SMALL_THRESHOLD, LIDAR_MINIMUM, LIDAR_SMALL_RATE,
          LIDAR_DENSITY_FACTORS, LIDAR_ACCURACY_FACTORS, addOnsTotalFn, ADD_ONS,
          applyMobilization, calcMobilizationCharge, calcMobilizationMiles, jsRound]
    norm_num
  have hp := h (by rw [heval]) 2000 1 1 450 0 (by rw [heval]) (by rw [heval]) (by rw [heval])
      (by rw [heval]) (by rw [heval])
  rw [hp]
  norm_num

end QuoteBackend
